import Mathlib

/-!
Verification of the keras-resnet repository (curbFlow/keras-resnet).

The repository builds Keras computation graphs: residual blocks
(`src/blocks/_1d.py`: `basic_1d`, `bottleneck_1d`) and full ResNet models
(`src/models/_2d.py`: `ResNet2D` and its named variants).  We embed the
graph-construction code shallowly: a `Tensor` is the symbolic trace of the
layer applications the Python code performs, with each Keras layer call
becoming a constructor application carrying the same configuration
arguments (filters, kernel size, strides, `use_bias`, names, ...).  The
floating-point `epsilon=1e-5` constant passed to every BatchNormalization
layer is a fixed literal irrelevant to every claim and is not carried in
the embedding.  The global Keras setting `image_data_format()` is passed
explicitly as a boolean `channels_last` argument.
-/

/-- Symbolic tensors: the trace of layer applications produced by the
graph-building code.  Each constructor mirrors one Keras layer call used
by the repository, carrying the arguments the source passes. -/
inductive Tensor : Type where
  | input : Tensor
  | zeroPadding1D (padding : Nat) (name : String) (x : Tensor) : Tensor
  | conv1D (filters kernel_size strides : Nat) (use_bias : Bool)
      (kernel_initializer name : String) (x : Tensor) : Tensor
  | conv2D (filters : Nat) (kernel_size strides : Nat × Nat) (use_bias : Bool)
      (padding name : String) (x : Tensor) : Tensor
  | batchNormalization (axis : Int) (freeze : Bool) (name : String) (x : Tensor) : Tensor
  | activation (kind name : String) (x : Tensor) : Tensor
  | maxPooling2D (pool_size strides : Nat × Nat) (padding name : String) (x : Tensor) : Tensor
  | globalAveragePooling2D (name : String) (x : Tensor) : Tensor
  | dense (units : Int) (act name : String) (x : Tensor) : Tensor
  | add (name : String) (a b : Tensor) : Tensor
deriving DecidableEq, Repr

/-- `basic_1d` lines 52-56: `if stride is None: if block != 0 or stage == 0:
stride = 1 else: stride = 2` (an if/else statement). -/
def basic_1d.defaultStride (stage block : Nat) : Nat :=
  if block != 0 || stage == 0 then 1 else 2

/-- `bottleneck_1d` lines 182-183: `stride = 1 if block != 0 or stage == 0
else 2` (a conditional expression). -/
def bottleneck_1d.defaultStride (stage block : Nat) : Nat :=
  if block != 0 || stage == 0 then 1 else 2

/-- `basic_1d` lines 63-66: `block_char = "b{block}"` when
`block > 0 and numerical_name`, else `chr(ord('a') + block)`. -/
def basic_1d.blockChar (block : Nat) (numerical_name : Bool) : String :=
  if decide (block > 0) && numerical_name then "b" ++ toString block
  else (Char.ofNat ( 'a'.toNat + block)).toString

/-- `bottleneck_1d` lines 190-193: same derivation as in `basic_1d`. -/
def bottleneck_1d.blockChar (block : Nat) (numerical_name : Bool) : String :=
  if decide (block > 0) && numerical_name then "b" ++ toString block
  else (Char.ofNat ( 'a'.toNat + block)).toString

/-- `basic_1d` line 68: `stage_char = str(stage + 2)`. -/
def basic_1d.stageChar (stage : Nat) : String :=
  toString (stage + 2)

/-- `bottleneck_1d` line 195: `stage_char = str(stage + 2)`. -/
def bottleneck_1d.stageChar (stage : Nat) : String :=
  toString (stage + 2)

/-- The BatchNormalization axis derived from the backend image data format
(`axis = -1` for channels_last, else `1`), as in `_1d.py` lines 58-61. -/
def bn_axis (channels_last : Bool) : Int :=
  if channels_last then -1 else 1

/-- Shallow embedding of `basic_1d` (src/blocks/_1d.py lines 20-147).
Returns the closure `f` applied to the input tensor `x`. -/
def basic_1d (filters stage block kernel_size : Nat) (numerical_name : Bool)
    (stride : Option Nat) (freeze_bn channels_last : Bool) (x : Tensor) : Tensor :=
  let stride := match stride with
    | none => basic_1d.defaultStride stage block
    | some s => s
  let axis := bn_axis channels_last
  let block_char := basic_1d.blockChar block numerical_name
  let stage_char := basic_1d.stageChar stage
  let y := Tensor.zeroPadding1D 1
    ("padding" ++ stage_char ++ block_char ++ "_branch2a") x
  let y := Tensor.conv1D filters kernel_size stride false "he_normal"
    ("res" ++ stage_char ++ block_char ++ "_branch2a") y
  let y := Tensor.batchNormalization axis freeze_bn
    ("bn" ++ stage_char ++ block_char ++ "_branch2a") y
  let y := Tensor.activation "relu"
    ("res" ++ stage_char ++ block_char ++ "_branch2a_relu") y
  let y := Tensor.zeroPadding1D 1
    ("padding" ++ stage_char ++ block_char ++ "_branch2b") y
  let y := Tensor.conv1D filters kernel_size 1 false "he_normal"
    ("res" ++ stage_char ++ block_char ++ "_branch2b") y
  let y := Tensor.batchNormalization axis freeze_bn
    ("bn" ++ stage_char ++ block_char ++ "_branch2b") y
  let shortcut :=
    if block == 0 then
      Tensor.batchNormalization axis freeze_bn
        ("bn" ++ stage_char ++ block_char ++ "_branch1")
        (Tensor.conv1D filters 1 stride false "he_normal"
          ("res" ++ stage_char ++ block_char ++ "_branch1") x)
    else x
  let y := Tensor.add ("res" ++ stage_char ++ block_char) y shortcut
  Tensor.activation "relu" ("res" ++ stage_char ++ block_char ++ "_relu") y

/-- Shallow embedding of `bottleneck_1d` (src/blocks/_1d.py lines 150-289). -/
def bottleneck_1d (filters stage block kernel_size : Nat) (numerical_name : Bool)
    (stride : Option Nat) (freeze_bn channels_last : Bool) (x : Tensor) : Tensor :=
  let stride := match stride with
    | none => bottleneck_1d.defaultStride stage block
    | some s => s
  let axis := bn_axis channels_last
  let block_char := bottleneck_1d.blockChar block numerical_name
  let stage_char := bottleneck_1d.stageChar stage
  let y := Tensor.conv1D filters 1 stride false "he_normal"
    ("res" ++ stage_char ++ block_char ++ "_branch2a") x
  let y := Tensor.batchNormalization axis freeze_bn
    ("bn" ++ stage_char ++ block_char ++ "_branch2a") y
  let y := Tensor.activation "relu"
    ("res" ++ stage_char ++ block_char ++ "_branch2a_relu") y
  let y := Tensor.zeroPadding1D 1
    ("padding" ++ stage_char ++ block_char ++ "_branch2b") y
  let y := Tensor.conv1D filters kernel_size 1 false "he_normal"
    ("res" ++ stage_char ++ block_char ++ "_branch2b") y
  let y := Tensor.batchNormalization axis freeze_bn
    ("bn" ++ stage_char ++ block_char ++ "_branch2b") y
  let y := Tensor.activation "relu"
    ("res" ++ stage_char ++ block_char ++ "_branch2b_relu") y
  let y := Tensor.conv1D (filters * 4) 1 1 false "he_normal"
    ("res" ++ stage_char ++ block_char ++ "_branch2c") y
  let y := Tensor.batchNormalization axis freeze_bn
    ("bn" ++ stage_char ++ block_char ++ "_branch2c") y
  let shortcut :=
    if block == 0 then
      Tensor.batchNormalization axis freeze_bn
        ("bn" ++ stage_char ++ block_char ++ "_branch1")
        (Tensor.conv1D (filters * 4) 1 stride false "he_normal"
          ("res" ++ stage_char ++ block_char ++ "_branch1") x)
    else x
  let y := Tensor.add ("res" ++ stage_char ++ block_char) y shortcut
  Tensor.activation "relu" ("res" ++ stage_char ++ block_char ++ "_relu") y

/-- Collect the `name` argument of every layer application in a trace,
outermost first.  Applied to a block built over `Tensor.input`, this is
the list of names of the layers the block created. -/
def Tensor.names : Tensor → List String
  | .input => []
  | .zeroPadding1D _ n x => n :: x.names
  | .conv1D _ _ _ _ _ n x => n :: x.names
  | .conv2D _ _ _ _ _ n x => n :: x.names
  | .batchNormalization _ _ n x => n :: x.names
  | .activation _ n x => n :: x.names
  | .maxPooling2D _ _ _ n x => n :: x.names
  | .globalAveragePooling2D n x => n :: x.names
  | .dense _ _ n x => n :: x.names
  | .add n a b => n :: (a.names ++ b.names)

/-- The main branch of a residual block result: the first argument of the
elementwise add under the final activation. -/
def Tensor.blockMain : Tensor → Option Tensor
  | .activation _ _ (.add _ y _) => some y
  | _ => none

/-- The shortcut path of a residual block result: the second argument of
the elementwise add under the final activation. -/
def Tensor.blockShortcut : Tensor → Option Tensor
  | .activation _ _ (.add _ _ s) => some s
  | _ => none

/-- The strides argument of the 1-D convolution nearest the input in a
linear chain of layers (the first convolution the data flows through). -/
def Tensor.bottomConvStride : Tensor → Option Nat
  | .input => none
  | .zeroPadding1D _ _ x => x.bottomConvStride
  | .conv1D _ _ st _ _ _ x =>
      match x.bottomConvStride with
      | some s => some s
      | none => some st
  | .conv2D _ _ _ _ _ _ x => x.bottomConvStride
  | .batchNormalization _ _ _ x => x.bottomConvStride
  | .activation _ _ x => x.bottomConvStride
  | .maxPooling2D _ _ _ _ x => x.bottomConvStride
  | .globalAveragePooling2D _ x => x.bottomConvStride
  | .dense _ _ _ x => x.bottomConvStride
  | .add _ _ _ => none

/-- Whether a trace ends with an elementwise add followed by a ReLU
activation. -/
def Tensor.isAddThenRelu : Tensor → Bool
  | .activation "relu" _ (.add _ _ _) => true
  | _ => false

/-- One invocation of the `block` argument inside the `ResNet2D.__init__`
stage loop, recording the positional and keyword arguments passed
(src/models/_2d.py lines 87-93). -/
structure BlockCall where
  features : Nat
  stage : Nat
  block : Nat
  numerical : Bool
  freeze : Bool
deriving DecidableEq, Repr

/-- A block-building function, as passed for the `block` parameter of
`ResNet2D.__init__`: arguments are filters, stage, block, numerical_name,
freeze_bn, and the input tensor. -/
def BlockFn : Type := Nat → Nat → Nat → Bool → Bool → Tensor → Tensor

/-- The inner loop of `ResNet2D.__init__` (src/models/_2d.py lines 86-93)
over the given list of block ids: threads `x` through the block calls and
records each call.  `nn` is `numerical_names[stage_id]`. -/
def ResNet2D.runStageIds (blockFn : BlockFn) (features stage_id : Nat)
    (nn freeze_bn : Bool) : List Nat → Tensor → Tensor × List BlockCall
  | [], x => (x, [])
  | bid :: rest, x =>
      let call : BlockCall :=
        ⟨features, stage_id, bid, decide (bid > 0) && nn, freeze_bn⟩
      let x := blockFn features stage_id bid (decide (bid > 0) && nn) freeze_bn x
      let r := ResNet2D.runStageIds blockFn features stage_id nn freeze_bn rest x
      (r.1, call :: r.2)

/-- The stage loop of `ResNet2D.__init__` (src/models/_2d.py lines 85-97):
for each entry of `residual_blocks` runs that many block calls, doubles
`features` after the stage, and appends the stage's final tensor to
`outputs`.  Returns the final tensor, the outputs list, and the trace of
all block calls made. -/
def ResNet2D.runStages (blockFn : BlockFn) (freeze_bn : Bool)
    (numerical_names : List Bool) :
    List Nat → Nat → Nat → Tensor → Tensor × List Tensor × List BlockCall
  | [], _, _, x => (x, [], [])
  | iterations :: rest, features, stage_id, x =>
      let nn := numerical_names.getD stage_id true
      let r₁ := ResNet2D.runStageIds blockFn features stage_id nn freeze_bn
        (List.range iterations) x
      let r₂ := ResNet2D.runStages blockFn freeze_bn numerical_names
        rest (features * 2) (stage_id + 1) r₁.1
      (r₂.1, r₁.1 :: r₂.2.1, r₁.2 ++ r₂.2.2)

/-- The stem of `ResNet2D.__init__` (src/models/_2d.py lines 76-79):
conv1, bn_conv1, conv1_relu, pool1. -/
def ResNet2D.stem (axis : Int) (freeze_bn : Bool) (inputs : Tensor) : Tensor :=
  let x := Tensor.conv2D 64 (7, 7) (2, 2) false "same" "conv1" inputs
  let x := Tensor.batchNormalization axis freeze_bn "bn_conv1" x
  let x := Tensor.activation "relu" "conv1_relu" x
  Tensor.maxPooling2D (3, 3) (2, 2) "same" "pool1" x

/-- `ResNet2D.__init__` lines 73-74: when `numerical_names` is `None` it
defaults to `[True] * len(residual_blocks)`. -/
def ResNet2D.resolveNumericalNames (numerical_names : Option (List Bool))
    (residual_blocks : List Nat) : List Bool :=
  match numerical_names with
  | none => List.replicate residual_blocks.length true
  | some l => l

/-- The constructed model: its input tensor and list of output tensors
(a single-element list when `include_top` is true). -/
structure ModelSpec where
  inputs : Tensor
  outputs : List Tensor
deriving DecidableEq, Repr

/-- Shallow embedding of `ResNet2D.__init__` (src/models/_2d.py lines
56-108).  The Python `assert classes > 0` is modelled as an
`AssertionError` result; `channels_last` stands for the global
`keras.backend.image_data_format() == "channels_last"` test. -/
def ResNet2D.construct (inputs : Tensor) (residual_blocks : List Nat)
    (blockFn : BlockFn) (include_top : Bool) (classes : Int)
    (freeze_bn channels_last : Bool) (numerical_names : Option (List Bool)) :
    Except String ModelSpec :=
  let axis : Int := if channels_last then 3 else 1
  let nns := ResNet2D.resolveNumericalNames numerical_names residual_blocks
  let x := ResNet2D.stem axis freeze_bn inputs
  let r := ResNet2D.runStages blockFn freeze_bn nns residual_blocks 64 0 x
  let x := r.1
  let outputs := r.2.1
  if include_top then
    if classes > 0 then
      let x := Tensor.globalAveragePooling2D "pool5" x
      let x := Tensor.dense classes "softmax" "fc1000" x
      .ok ⟨inputs, [x]⟩
    else
      .error "AssertionError"
  else
    .ok ⟨inputs, outputs⟩

/-- Which residual block function a named variant passes for the `block`
parameter: `blocks.basic_2d` or `blocks.bottleneck_2d`. -/
inductive BlockKind : Type where
  | basic : BlockKind
  | bottleneck : BlockKind
deriving DecidableEq, Repr

/-- The arguments a named variant's `__init__` forwards to
`ResNet2D.__init__`: the resolved residual block counts, the block
function, and the `numerical_names` keyword (when passed). -/
structure SuperArgs where
  residualBlocks : List Nat
  blockKind : BlockKind
  numericalNames : Option (List Bool)
deriving DecidableEq, Repr

/-- `ResNet2D18.__init__` (src/models/_2d.py lines 139-152). -/
def ResNet2D18.superArgs (residual_blocks : Option (List Nat)) : SuperArgs :=
  ⟨residual_blocks.getD [2, 2, 2, 2], .basic, none⟩

/-- `ResNet2D34.__init__` (src/models/_2d.py lines 183-196). -/
def ResNet2D34.superArgs (residual_blocks : Option (List Nat)) : SuperArgs :=
  ⟨residual_blocks.getD [3, 4, 6, 3], .basic, none⟩

/-- `ResNet2D50.__init__` (src/models/_2d.py lines 227-243). -/
def ResNet2D50.superArgs (residual_blocks : Option (List Nat)) : SuperArgs :=
  ⟨residual_blocks.getD [3, 4, 6, 3], .bottleneck, some [false, false, false, false]⟩

/-- `ResNet2D101.__init__` (src/models/_2d.py lines 274-290). -/
def ResNet2D101.superArgs (residual_blocks : Option (List Nat)) : SuperArgs :=
  ⟨residual_blocks.getD [3, 4, 23, 3], .bottleneck, some [false, true, true, false]⟩

/-- `ResNet2D152.__init__` (src/models/_2d.py lines 321-337). -/
def ResNet2D152.superArgs (residual_blocks : Option (List Nat)) : SuperArgs :=
  ⟨residual_blocks.getD [3, 8, 36, 3], .bottleneck, some [false, true, true, false]⟩

/-- `ResNet2D200.__init__` (src/models/_2d.py lines 368-384). -/
def ResNet2D200.superArgs (residual_blocks : Option (List Nat)) : SuperArgs :=
  ⟨residual_blocks.getD [3, 24, 36, 3], .bottleneck, some [false, true, true, false]⟩

/-- The trace of block invocations made while constructing a `ResNet2D`
model with the given arguments (the `block(...)` calls of src/models/_2d.py
lines 87-93, in order). -/
def ResNet2D.constructCalls (inputs : Tensor) (residual_blocks : List Nat)
    (blockFn : BlockFn) (freeze_bn channels_last : Bool)
    (numerical_names : Option (List Bool)) : List BlockCall :=
  let axis : Int := if channels_last then 3 else 1
  let nns := ResNet2D.resolveNumericalNames numerical_names residual_blocks
  let x := ResNet2D.stem axis freeze_bn inputs
  (ResNet2D.runStages blockFn freeze_bn nns residual_blocks 64 0 x).2.2

/-- A trivial block function (returns its input tensor unchanged), used to
instantiate universally quantified statements at a concrete block. -/
def idBlockFn : BlockFn := fun _ _ _ _ _ x => x

/-- The 1-D basic block packaged as a `BlockFn` with kernel size 3 and the
default stride, in a channels-last backend. -/
def basicBlockFn : BlockFn := fun filters stage block nn fz x =>
  basic_1d filters stage block 3 nn none fz true x

/-- C10: `basic_1d` (if/else statement, lines 52-68) and `bottleneck_1d`
(conditional expression, lines 182-195) derive identical default strides,
block characters and stage characters from identical inputs. -/
theorem c10_derivations_agree :
    ∀ (stage block : Nat) (numerical_name : Bool),
      basic_1d.defaultStride stage block = bottleneck_1d.defaultStride stage block ∧
      basic_1d.blockChar block numerical_name = bottleneck_1d.blockChar block numerical_name ∧
      basic_1d.stageChar stage = bottleneck_1d.stageChar stage := by
  intro stage block numerical_name
  exact ⟨rfl, rfl, rfl⟩

/-- C1: with `residual_blocks = None`, ResNet2D18 uses [2,2,2,2], ResNet2D34
uses [3,4,6,3], ResNet2D50 uses [3,4,6,3], ResNet2D101 uses [3,4,23,3],
ResNet2D152 uses [3,8,36,3], ResNet2D200 uses [3,24,36,3]; the 18 and 34
variants pass the basic block and the 50, 101, 152 and 200 variants pass
the bottleneck block. -/
theorem c1_variant_tables :
    (ResNet2D18.superArgs none).residualBlocks = [2, 2, 2, 2] ∧
    (ResNet2D34.superArgs none).residualBlocks = [3, 4, 6, 3] ∧
    (ResNet2D50.superArgs none).residualBlocks = [3, 4, 6, 3] ∧
    (ResNet2D101.superArgs none).residualBlocks = [3, 4, 23, 3] ∧
    (ResNet2D152.superArgs none).residualBlocks = [3, 8, 36, 3] ∧
    (ResNet2D200.superArgs none).residualBlocks = [3, 24, 36, 3] ∧
    (ResNet2D18.superArgs none).blockKind = BlockKind.basic ∧
    (ResNet2D34.superArgs none).blockKind = BlockKind.basic ∧
    (ResNet2D50.superArgs none).blockKind = BlockKind.bottleneck ∧
    (ResNet2D101.superArgs none).blockKind = BlockKind.bottleneck ∧
    (ResNet2D152.superArgs none).blockKind = BlockKind.bottleneck ∧
    (ResNet2D200.superArgs none).blockKind = BlockKind.bottleneck := by
  refine ⟨rfl, rfl, rfl, rfl, rfl, rfl, rfl, rfl, rfl, rfl, rfl, rfl⟩

/-- C6: every `basic_1d` and `bottleneck_1d` block returns an elementwise
add of the main branch and the shortcut followed by a ReLU activation. -/
theorem c6_add_then_relu :
    ∀ (f s b k : Nat) (nn : Bool) (st : Option Nat) (fz cl : Bool) (x : Tensor),
      (basic_1d f s b k nn st fz cl x).isAddThenRelu = true ∧
      (bottleneck_1d f s b k nn st fz cl x).isAddThenRelu = true := by
  intro f s b k nn st fz cl x
  exact ⟨rfl, rfl⟩

/-- C2: with `stride=None`, both blocks derive stride 1 when `block != 0 or
stage == 0` and stride 2 otherwise, and that stride is the strides argument
of the first convolution of the main branch and, when present (block 0), of
the shortcut projection convolution. -/
theorem c2_default_stride :
    ∀ (f s b k : Nat) (nn fz cl : Bool),
      ((basic_1d f s b k nn none fz cl Tensor.input).blockMain.bind
          Tensor.bottomConvStride = some (if b ≠ 0 ∨ s = 0 then 1 else 2)) ∧
      ((bottleneck_1d f s b k nn none fz cl Tensor.input).blockMain.bind
          Tensor.bottomConvStride = some (if b ≠ 0 ∨ s = 0 then 1 else 2)) ∧
      ((basic_1d f s b k nn none fz cl Tensor.input).blockShortcut.bind
          Tensor.bottomConvStride =
        if b = 0 then some (if b ≠ 0 ∨ s = 0 then 1 else 2) else none) ∧
      ((bottleneck_1d f s b k nn none fz cl Tensor.input).blockShortcut.bind
          Tensor.bottomConvStride =
        if b = 0 then some (if b ≠ 0 ∨ s = 0 then 1 else 2) else none) := by
  intro f s b k nn fz cl
  by_cases hb : b = 0 <;> by_cases hs : s = 0 <;>
    simp [basic_1d, bottleneck_1d, basic_1d.defaultStride, bottleneck_1d.defaultStride,
      Tensor.blockMain, Tensor.blockShortcut, Tensor.bottomConvStride, hb, hs]

/-- C3: both blocks build a projection shortcut (a width-1 convolution named
res{stage}{block}_branch1 plus a batch normalization named
bn{stage}{block}_branch1, applied to the block input) exactly when
`block == 0`; otherwise the shortcut passed to the add is the unmodified
block input.  In `bottleneck_1d` the projection produces `filters * 4`
channels, the channel width of the main branch's final convolution. -/
theorem c3_shortcut_projection :
    ∀ (f s b k : Nat) (nn : Bool) (st : Option Nat) (fz cl : Bool) (x : Tensor),
      ((basic_1d f s b k nn st fz cl x).blockShortcut = some (
        if b = 0 then
          Tensor.batchNormalization (bn_axis cl) fz
            ("bn" ++ basic_1d.stageChar s ++ basic_1d.blockChar b nn ++ "_branch1")
            (Tensor.conv1D f 1 (st.getD (basic_1d.defaultStride s b)) false "he_normal"
              ("res" ++ basic_1d.stageChar s ++ basic_1d.blockChar b nn ++ "_branch1") x)
        else x)) ∧
      ((bottleneck_1d f s b k nn st fz cl x).blockShortcut = some (
        if b = 0 then
          Tensor.batchNormalization (bn_axis cl) fz
            ("bn" ++ bottleneck_1d.stageChar s ++ bottleneck_1d.blockChar b nn ++ "_branch1")
            (Tensor.conv1D (f * 4) 1 (st.getD (bottleneck_1d.defaultStride s b)) false
              "he_normal"
              ("res" ++ bottleneck_1d.stageChar s ++ bottleneck_1d.blockChar b nn ++ "_branch1")
              x)
        else x)) ∧
      (∃ rest, (bottleneck_1d f s b k nn st fz cl x).blockMain = some (
        Tensor.batchNormalization (bn_axis cl) fz
          ("bn" ++ bottleneck_1d.stageChar s ++ bottleneck_1d.blockChar b nn ++ "_branch2c")
          (Tensor.conv1D (f * 4) 1 1 false "he_normal"
            ("res" ++ bottleneck_1d.stageChar s ++ bottleneck_1d.blockChar b nn ++ "_branch2c")
            rest))) := by
  intro f s b k nn st fz cl x
  refine ⟨?_, ?_, ⟨_, rfl⟩⟩ <;>
    cases st <;> by_cases hb : b = 0 <;>
      simp [basic_1d, bottleneck_1d, Tensor.blockShortcut, Option.getD, hb]

/-- C5: the stage character is the decimal string of stage + 2; the block
character is "b" followed by the decimal block number when block > 0 and
numerical_name holds, else the letter at alphabet position block from 'a';
and the layers created by each block carry exactly the fixed
padding/res/bn branch names built from those characters (the bottleneck
block adding its branch2b_relu, branch2c and bn branch2c names). -/
theorem c5_layer_names :
    ∀ (f s b k : Nat) (nn : Bool) (st : Option Nat) (fz cl : Bool),
      basic_1d.stageChar s = toString (s + 2) ∧
      basic_1d.blockChar b nn =
        (if decide (b > 0) && nn then "b" ++ toString b
         else (Char.ofNat ( 'a'.toNat + b)).toString) ∧
      (let sc := basic_1d.stageChar s
       let bc := basic_1d.blockChar b nn
       (basic_1d f s b k nn st fz cl Tensor.input).names =
        ["res" ++ sc ++ bc ++ "_relu", "res" ++ sc ++ bc,
         "bn" ++ sc ++ bc ++ "_branch2b", "res" ++ sc ++ bc ++ "_branch2b",
         "padding" ++ sc ++ bc ++ "_branch2b", "res" ++ sc ++ bc ++ "_branch2a_relu",
         "bn" ++ sc ++ bc ++ "_branch2a", "res" ++ sc ++ bc ++ "_branch2a",
         "padding" ++ sc ++ bc ++ "_branch2a"] ++
        (if b = 0 then ["bn" ++ sc ++ bc ++ "_branch1", "res" ++ sc ++ bc ++ "_branch1"]
         else [])) ∧
      (let sc := bottleneck_1d.stageChar s
       let bc := bottleneck_1d.blockChar b nn
       (bottleneck_1d f s b k nn st fz cl Tensor.input).names =
        ["res" ++ sc ++ bc ++ "_relu", "res" ++ sc ++ bc,
         "bn" ++ sc ++ bc ++ "_branch2c", "res" ++ sc ++ bc ++ "_branch2c",
         "res" ++ sc ++ bc ++ "_branch2b_relu",
         "bn" ++ sc ++ bc ++ "_branch2b", "res" ++ sc ++ bc ++ "_branch2b",
         "padding" ++ sc ++ bc ++ "_branch2b", "res" ++ sc ++ bc ++ "_branch2a_relu",
         "bn" ++ sc ++ bc ++ "_branch2a", "res" ++ sc ++ bc ++ "_branch2a"] ++
        (if b = 0 then ["bn" ++ sc ++ bc ++ "_branch1", "res" ++ sc ++ bc ++ "_branch1"]
         else [])) := by
  intro f s b k nn st fz cl
  refine ⟨rfl, rfl, ?_, ?_⟩ <;>
    by_cases hb : b = 0 <;>
      simp [basic_1d, bottleneck_1d, Tensor.names, hb]

/-- Whether a construction result is a built model (no assertion failure). -/
def modelBuilt : Except String ModelSpec → Bool
  | .ok _ => true
  | .error _ => false

/-- C4 counterexample: a `ResNet2D` construction with `classes = 0 <= 0`
(and `include_top = False`) builds a model without any assertion failure,
refuting the claim that every construction with a non-positive class count
fails the assertion. -/
theorem c4_counterexample :
    (0 : Int) ≤ 0 ∧
    modelBuilt
      (ResNet2D.construct Tensor.input [1] basicBlockFn false 0 true true none) = true := by
  exact ⟨le_refl 0, rfl⟩

/-- C4 amended: when `include_top` is true, constructing a `ResNet2D` with
`classes <= 0` fails the `assert classes > 0` and the model is not built;
with `include_top` false the classes argument is not validated. -/
theorem c4_assert_positive_classes :
    ∀ (inputs : Tensor) (rb : List Nat) (blockFn : BlockFn) (classes : Int)
      (fz cl : Bool) (nns : Option (List Bool)),
      classes ≤ 0 →
      ResNet2D.construct inputs rb blockFn true classes fz cl nns =
        .error "AssertionError" := by
  intro inputs rb blockFn classes fz cl nns h
  have hc : ¬ classes > 0 := by omega
  simp [ResNet2D.construct, hc]

/-- Concrete instance of the amended C4 theorem. -/
theorem c4_witness :
    ResNet2D.construct Tensor.input [2, 2, 2, 2] basicBlockFn true 0 true true none =
      .error "AssertionError" := by
  exact c4_assert_positive_classes Tensor.input [2, 2, 2, 2] basicBlockFn 0 true true none
    (by decide)

/-- Every call recorded by the inner block loop carries the loop's
`features` and `stage_id`, and the numerical flag `block_id > 0 && nn`. -/
theorem runStageIds_mem (blockFn : BlockFn) (features stage_id : Nat)
    (nn fz : Bool) (bids : List Nat) (x : Tensor) (c : BlockCall)
    (h : c ∈ (ResNet2D.runStageIds blockFn features stage_id nn fz bids x).2) :
    c.features = features ∧ c.stage = stage_id ∧
      c.numerical = (decide (c.block > 0) && nn) := by
  induction bids generalizing x with
  | nil => simp [ResNet2D.runStageIds] at h
  | cons bid rest ih =>
      simp only [ResNet2D.runStageIds, List.mem_cons] at h
      rcases h with h | h
      · subst h; exact ⟨rfl, rfl, rfl⟩
      · exact ih _ h

/-- Every call recorded by the stage loop belongs to some stage offset `d`
within the remaining stages: its stage id is `stage_id + d`, its features
value is `features * 2 ^ d`, and its numerical flag is
`block_id > 0 && numerical_names[stage]`. -/
theorem runStages_mem (blockFn : BlockFn) (fz : Bool) (nns : List Bool)
    (rb : List Nat) (features stage_id : Nat) (x : Tensor) (c : BlockCall)
    (h : c ∈ (ResNet2D.runStages blockFn fz nns rb features stage_id x).2.2) :
    ∃ d, d < rb.length ∧ c.stage = stage_id + d ∧ c.features = features * 2 ^ d ∧
      c.numerical = (decide (c.block > 0) && nns.getD c.stage true) := by
  induction rb generalizing features stage_id x with
  | nil => simp [ResNet2D.runStages] at h
  | cons it rest ih =>
      simp only [ResNet2D.runStages, List.mem_append] at h
      rcases h with h | h
      · obtain ⟨hf, hs, hn⟩ := runStageIds_mem _ _ _ _ _ _ _ _ h
        refine ⟨0, by simp, by simpa using hs, by simpa using hf, ?_⟩
        rw [hn, hs]
      · obtain ⟨d, hd, hs, hf, hn⟩ := ih _ _ _ h
        refine ⟨d + 1, by simpa using hd, by omega, ?_, hn⟩
        rw [hf]; ring

/-- C7: in `ResNet2D` construction every block call of stage `i` is made
with `features = 64 * 2 ^ i` (features start at 64 and double once after
each stage, so all blocks of a stage share the same value). -/
theorem c7_features_per_stage :
    ∀ (inputs : Tensor) (rb : List Nat) (blockFn : BlockFn) (fz cl : Bool)
      (nns : Option (List Bool)) (c : BlockCall),
      c ∈ ResNet2D.constructCalls inputs rb blockFn fz cl nns →
      c.features = 64 * 2 ^ c.stage := by
  intro inputs rb blockFn fz cl nns c h
  simp only [ResNet2D.constructCalls] at h
  obtain ⟨d, _, hs, hf, _⟩ := runStages_mem _ _ _ _ _ _ _ _ h
  rw [hf, hs]
  norm_num

/-- Concrete instance of C7: the first block of stage 1 of a two-stage
construction is called with features 128 = 64 * 2. -/
theorem c7_witness :
    (⟨128, 1, 0, false, true⟩ : BlockCall).features =
      64 * 2 ^ (⟨128, 1, 0, false, true⟩ : BlockCall).stage := by
  exact c7_features_per_stage Tensor.input [1, 1] idBlockFn true true none
    ⟨128, 1, 0, false, true⟩ (by decide)

/-- C9: when `numerical_names` is `None` it defaults to a list of `True` of
the length of `residual_blocks`; the flag passed to each block call is
`block_id > 0 and numerical_names[stage_id]`, so the first block of every
stage is never built with numerical naming. -/
theorem c9_numerical_names :
    (∀ rb : List Nat,
      ResNet2D.resolveNumericalNames none rb = List.replicate rb.length true) ∧
    (∀ (inputs : Tensor) (rb : List Nat) (blockFn : BlockFn) (fz cl : Bool)
      (nns : Option (List Bool)) (c : BlockCall),
      c ∈ ResNet2D.constructCalls inputs rb blockFn fz cl nns →
      c.numerical =
        (decide (c.block > 0) &&
          (ResNet2D.resolveNumericalNames nns rb).getD c.stage true) ∧
      (c.block = 0 → c.numerical = false)) := by
  constructor
  · intro rb; rfl
  · intro inputs rb blockFn fz cl nns c h
    simp only [ResNet2D.constructCalls] at h
    obtain ⟨d, _, _, _, hn⟩ := runStages_mem _ _ _ _ _ _ _ _ h
    refine ⟨hn, ?_⟩
    intro hb
    rw [hn, hb]
    simp

/-- Concrete instance of C9: the default numerical_names for two stages,
and block 0 of stage 0 built without numerical naming. -/
theorem c9_witness :
    ResNet2D.resolveNumericalNames none [2, 2] = [true, true] ∧
    (⟨64, 0, 0, false, true⟩ : BlockCall).numerical = false := by
  constructor
  · rw [c9_numerical_names.1 [2, 2]]; rfl
  · exact (c9_numerical_names.2 Tensor.input [2, 2] idBlockFn true true none
      ⟨64, 0, 0, false, true⟩ (by decide)).2 rfl

/-- The outputs list of the stage loop: entry `i` is the final tensor of
running only the first `i + 1` stages. -/
theorem runStages_outputs (blockFn : BlockFn) (fz : Bool) (nns : List Bool)
    (rb : List Nat) (features stage_id : Nat) (x : Tensor) :
    (ResNet2D.runStages blockFn fz nns rb features stage_id x).2.1 =
      (List.range rb.length).map (fun i =>
        (ResNet2D.runStages blockFn fz nns (rb.take (i + 1)) features stage_id x).1) := by
  induction rb generalizing features stage_id x with
  | nil => rfl
  | cons it rest ih =>
      rw [List.length_cons, List.range_succ_eq_map, List.map_cons, List.map_map]
      simp only [ResNet2D.runStages]
      congr 1
      rw [ih]
      rfl

/-- C8: with `include_top` false the constructed model's outputs are the
per-stage feature tensors, one per entry of `residual_blocks`, the i-th
being the tensor after the last block of stage i; with `include_top` true
the model has the single output of global average pooling followed by a
dense softmax layer with `classes` units. -/
theorem c8_model_outputs :
    ∀ (inputs : Tensor) (rb : List Nat) (blockFn : BlockFn) (classes : Int)
      (fz cl : Bool) (nns : Option (List Bool)),
      (∀ m, ResNet2D.construct inputs rb blockFn false classes fz cl nns = .ok m →
        m.outputs.length = rb.length ∧
        m.outputs = (List.range rb.length).map (fun i =>
          (ResNet2D.runStages blockFn fz (ResNet2D.resolveNumericalNames nns rb)
            (rb.take (i + 1)) 64 0
            (ResNet2D.stem (if cl then 3 else 1) fz inputs)).1)) ∧
      (∀ m, ResNet2D.construct inputs rb blockFn true classes fz cl nns = .ok m →
        m.outputs = [Tensor.dense classes "softmax" "fc1000"
          (Tensor.globalAveragePooling2D "pool5"
            (ResNet2D.runStages blockFn fz (ResNet2D.resolveNumericalNames nns rb)
              rb 64 0 (ResNet2D.stem (if cl then 3 else 1) fz inputs)).1)]) := by
  intro inputs rb blockFn classes fz cl nns
  constructor
  · intro m h
    simp only [ResNet2D.construct, Bool.false_eq_true, if_false, Except.ok.injEq] at h
    subst h
    refine ⟨?_, ?_⟩
    · simp [runStages_outputs]
    · simp [runStages_outputs]
  · intro m h
    by_cases hc : classes > 0
    · simp only [ResNet2D.construct, if_true, if_pos hc, Except.ok.injEq] at h
      subst h
      rfl
    · simp [ResNet2D.construct, hc] at h

/-- Concrete instance of C8: a one-stage model with the classification head
has the single dense-softmax output. -/
theorem c8_witness :
    ∃ m, ResNet2D.construct Tensor.input [1] idBlockFn true 5 true true none =
        .ok m ∧
      m.outputs = [Tensor.dense 5 "softmax" "fc1000"
        (Tensor.globalAveragePooling2D "pool5"
          (ResNet2D.runStages idBlockFn true (ResNet2D.resolveNumericalNames none [1])
            [1] 64 0 (ResNet2D.stem (if true then 3 else 1) true Tensor.input)).1)] := by
  refine ⟨_, rfl, ?_⟩
  exact (c8_model_outputs Tensor.input [1] idBlockFn 5 true true none).2 _ rfl
